import Mathlib

/-!
# Verification of the macro-risk-dashboard signal engine and data acquisition

Shallow embedding of `src/signals.py` and the fallback chain of
`src/data_sources.py` (`fetch_fred_series`).

Modelling conventions:
* A pandas `Series` is embedded as `List (Option ℚ)`: the chronologically
  ordered values, with `none` standing for a `NaN` entry.  Timestamps are
  abstracted away — none of the verified functions reads the index.
* A Python `float` that may be `None` or `NaN` is embedded as `Option ℚ`;
  `none` covers both `None` and `NaN`, which every consumer in
  `signals.py` treats identically (`if x is None or np.isnan(x)`).
* A value of the input `dict` of `build_metrics_table` is either a series
  or some non-`Series` object (`DataValue.notSeries`); `data.get(key)`
  becomes a function `String → Option DataValue`.
* Python exceptions of external calls are modelled by the `Http.raise`
  constructor of an oracle environment; the embedded functions are total,
  mirroring the fact that the Python functions catch all exceptions.
-/

namespace MacroRisk

/-- `TRADING_DAYS_4W = 20` from `signals.py`: ~20 trading days for the
4-week lookback. -/
def TRADING_DAYS_4W : ℕ := 20

/-- `REGIMES` from `signals.py`: ordered list of `(lo, hi, label)` score
bands. -/
def REGIMES : List (ℤ × ℤ × String) :=
  [(0, 4, "Expansion"),
   (5, 8, "Late Cycle"),
   (9, 14, "Stress Building"),
   (15, 999, "Crisis")]

/-- `_pct_change_4w` from `signals.py`.

```python
if series is None or len(series) < 2 or last_n >= len(series):
    return None
recent = series.iloc[-last_n:]
old = recent.iloc[0]
new = recent.iloc[-1]
if old == 0 or np.isnan(old):
    return None
return float((new - old) / old * 100)
```

`series.iloc[-last_n:]` is embedded as dropping all but the final `last_n`
entries (the only call site uses `last_n = 20 ≥ 1`, where the two agree).
A `NaN` window-first value returns `None`; a `NaN` window-last value makes
the Python result the float `NaN`, which is `none` in our encoding. -/
def pct_change_4w (series : List (Option ℚ)) (last_n : ℕ) : Option ℚ :=
  if series.length < 2 ∨ last_n ≥ series.length then none
  else
    let recent := series.drop (series.length - last_n)
    match recent.head?, recent.getLast? with
    | some old, some nw =>
      match old with
      | none => none
      | some o =>
        if o = 0 then none
        else
          match nw with
          | none => none
          | some n => some ((n - o) / o * 100)
    | _, _ => none

/-- `trend_arrow` from `signals.py`: `↑` if `> 2`, `↓` if `< -2`, `→`
otherwise, `—` when the input is `None`/`NaN`. -/
def trend_arrow (pct : Option ℚ) : String :=
  match pct with
  | none => "—"
  | some p => if p > 2 then "↑" else if p < -2 then "↓" else "→"

/-- `flag_hy_oas` from `signals.py`: `<4` green=0, `4–6` yellow=1, `>6`
red=2; `None`/`NaN` yields 1. -/
def flag_hy_oas (value : Option ℚ) : ℕ :=
  match value with
  | none => 1
  | some v => if v < 4 then 0 else if v ≤ 6 then 1 else 2

/-- `flag_vix` from `signals.py`: `<20` green=0, `20–30` yellow=1, `>30`
red=2; `None`/`NaN` yields 1. -/
def flag_vix (value : Option ℚ) : ℕ :=
  match value with
  | none => 1
  | some v => if v < 20 then 0 else if v ≤ 30 then 1 else 2

/-- `flag_etf_4w` from `signals.py`: `pct ≥ -2` → 0, `-6 ≤ pct < -2` → 1,
`pct < -6` → 2; `None`/`NaN` yields 1. -/
def flag_etf_4w (pct : Option ℚ) : ℕ :=
  match pct with
  | none => 1
  | some p => if p ≥ -2 then 0 else if p ≥ -6 then 1 else 2

/-- `flag_label` from `signals.py`. -/
def flag_label (flag : ℕ) : String :=
  if flag = 0 then "Green" else if flag = 1 then "Yellow" else "Red"

/-- One entry of `METRIC_CONFIG`:
`(section, display_name, series_id_or_ticker, flag_type, note key)`. -/
structure MetricConfigEntry where
  sec : String
  displayName : String
  key : String
  flagType : String
  noteHint : Option String
deriving DecidableEq, Repr

/-- `METRIC_CONFIG` from `signals.py`: the nine fixed metrics in
declaration order. -/
def METRIC_CONFIG : List MetricConfigEntry :=
  [⟨"Credit Risk", "HY OAS (BAML)", "BAMLH0A0HYM2", "hy_oas", none⟩,
   ⟨"Credit Risk", "HYG", "HYG", "etf_4w", none⟩,
   ⟨"Credit Risk", "JNK", "JNK", "etf_4w", none⟩,
   ⟨"Volatility", "VIX", "^VIX", "vix", none⟩,
   ⟨"Liquidity/Dollar", "Fed Balance Sheet (WALCL)", "WALCL", "etf_4w", some "4W % chg"⟩,
   ⟨"Liquidity/Dollar", "UUP (Dollar)", "UUP", "etf_4w", none⟩,
   ⟨"Rates & Growth", "SPY", "SPY", "etf_4w", none⟩,
   ⟨"Tail Risk", "XLF", "XLF", "etf_4w", none⟩,
   ⟨"Tail Risk", "KRE", "KRE", "etf_4w", none⟩]

/-- A value of the `data` dict passed to `build_metrics_table`: either a
pandas `Series` or any other object (which fails the `isinstance` check). -/
inductive DataValue where
  | series : List (Option ℚ) → DataValue
  | notSeries : DataValue
deriving DecidableEq

/-- The `series is None or not isinstance(series, pd.Series)` / `current`
/ `pct_4w` block of `build_metrics_table`, for one metric:
`current = float(series.iloc[-1]) if len(series) > 0 else None` and
`pct_4w = _pct_change_4w(series, TRADING_DAYS_4W)`. -/
def currentAndPct (v : Option DataValue) : Option ℚ × Option ℚ :=
  match v with
  | none => (none, none)
  | some .notSeries => (none, none)
  | some (.series s) => (s.getLast?.join, pct_change_4w s TRADING_DAYS_4W)

/-- The flag dispatch of `build_metrics_table`: `hy_oas` and `vix` flag on
the current value, everything else flags on the 4-week percent change. -/
def metricFlag (flagType : String) (current pct : Option ℚ) : ℕ :=
  if flagType = "hy_oas" then flag_hy_oas current
  else if flagType = "vix" then flag_vix current
  else flag_etf_4w pct

/-- Round a rational to the nearest integer, ties to even — the rounding
used by Python's fixed-point float formatting.  (Exact IEEE-754 binary
representation effects are not modelled; no verified claim inspects a
formatted defined value.) -/
def roundHalfEven (q : ℚ) : ℤ :=
  if Int.fract q < 1/2 then ⌊q⌋
  else if 1/2 < Int.fract q then ⌊q⌋ + 1
  else if ⌊q⌋ % 2 = 0 then ⌊q⌋ else ⌊q⌋ + 1

/-- Left-pad the fractional part of a two-decimal rendering. -/
def padTwo (n : ℕ) : String :=
  if n < 10 then "0" ++ toString n else toString n

/-- Python `f"{x:.2f}"` on a rational. -/
def format2 (q : ℚ) : String :=
  let a := (roundHalfEven (|q| * 100)).toNat
  (if q < 0 then "-" else "") ++ toString (a / 100) ++ "." ++ padTwo (a % 100)

/-- Left-pad a thousands group to three digits. -/
def padThree (n : ℕ) : String :=
  if n < 10 then "00" ++ toString n
  else if n < 100 then "0" ++ toString n
  else toString n

/-- Render a natural number with thousands separators. -/
def commaSep (n : ℕ) : String :=
  if n < 1000 then toString n
  else commaSep (n / 1000) ++ "," ++ padThree (n % 1000)
termination_by n
decreasing_by
  exact Nat.div_lt_self (by omega) (by omega)

/-- Python `f"{x:,.0f}"` on a rational. -/
def formatComma0 (q : ℚ) : String :=
  let a := (roundHalfEven |q|).toNat
  (if q < 0 then "-" else "") ++ commaSep a

/-- The `current_str` block of `build_metrics_table`:
`f"{current:.2f}" if key != "WALCL" else f"{current:,.0f}"` when the
current value is defined, the em-dash placeholder otherwise. -/
def formatCurrent (key : String) (current : Option ℚ) : String :=
  match current with
  | none => "—"
  | some q => if key ≠ "WALCL" then format2 q else formatComma0 q

/-- One row of the output table of `build_metrics_table`. -/
structure MetricRow where
  sec : String
  metric : String
  current : String
  trend : String
  flag : String
  notes : String
deriving DecidableEq, Repr

/-- The flag computed by one loop iteration of `build_metrics_table`. -/
def rowFlag (data : String → Option DataValue) (cfg : MetricConfigEntry) : ℕ :=
  let cp := currentAndPct (data cfg.key)
  metricFlag cfg.flagType cp.1 cp.2

/-- The row built by one loop iteration of `build_metrics_table`. -/
def buildRow (data : String → Option DataValue) (cfg : MetricConfigEntry) : MetricRow :=
  let cp := currentAndPct (data cfg.key)
  { sec := cfg.sec
    metric := cfg.displayName
    current := formatCurrent cfg.key cp.1
    trend := trend_arrow cp.2
    flag := flag_label (metricFlag cfg.flagType cp.1 cp.2)
    notes := cfg.noteHint.getD "" }

/-- The regime lookup at the end of `build_metrics_table`: label of the
first band of `REGIMES` containing the score, `"Unknown"` if none does. -/
def regime_label (score : ℤ) : String :=
  match REGIMES.find? (fun b => decide (b.1 ≤ score ∧ score ≤ b.2.1)) with
  | some b => b.2.2
  | none => "Unknown"

/-- `build_metrics_table` from `signals.py`: rows, total score and regime
label.  The single Python loop accumulating `rows` and `total_score` is
split into the per-entry projections `buildRow` and `rowFlag`, mapped over
the same `METRIC_CONFIG` in the same order. -/
def build_metrics_table (data : String → Option DataValue) :
    List MetricRow × ℕ × String :=
  let rows := METRIC_CONFIG.map (buildRow data)
  let total := (METRIC_CONFIG.map (rowFlag data)).sum
  (rows, total, regime_label (total : ℤ))

/-! ## Data acquisition: `fetch_fred_series` of `data_sources.py`

The external world (HTTP requests, `pandas.read_csv`) is an oracle
environment `FredEnv`; the `Http.raise` constructor stands for a Python
exception escaping the corresponding library call.  The embedded
functions are total: every `try/except` of the source catches all
exceptions, and the embedding makes that explicit. -/

/-- Outcome of one external library call: an escaping exception, or a
normal result. -/
inductive Http (α : Type) where
  | raise : Http α
  | ok : α → Http α

/-- Oracle environment for one `fetch_fred_series` invocation.
`apiHttp` is the API `requests.get` + `raise_for_status` + `r.json()`
pipeline: `raise` for any exception, otherwise the `observations` list
with each entry's `value` field already read as a rational (`none` for
the missing-data marker `"."` and for strings `float` rejects; dates are
abstracted away).  `csvHttp`/`mirrorHttp` are the two CSV `requests.get`
calls (`raise` covers network errors and `raise_for_status`), yielding
`r.text`.  `csvParse`/`mirrorParse` are `_parse_fred_csv` on that text:
`raise` for a parse exception, otherwise the numeric series. -/
structure FredEnv where
  apiKey : String
  apiHttp : Http (List (Option ℚ))
  csvHttp : Http String
  csvParse : String → Http (List ℚ)
  mirrorHttp : Http String
  mirrorParse : String → Http (List ℚ)

/-- `"pat" in s` of Python: `s.splitOn pat` has a second chunk exactly
when `pat` occurs in `s`. -/
def containsStr (s pat : String) : Bool :=
  decide (2 ≤ (s.splitOn pat).length)

/-- `_fetch_fred_via_api` from `data_sources.py`: empty series when the
call raises, the payload has no observations, or no value survives the
`"."` filter and `float` conversion; otherwise the surviving values.
(The date index and `sort_index` are abstracted away.) -/
def fetch_fred_via_api (env : FredEnv) : List ℚ :=
  match env.apiHttp with
  | .raise => []
  | .ok obs =>
    if obs.isEmpty then []
    else obs.filterMap id

/-- The guard of the first fallback of `fetch_fred_series`:
`r.text and "date" in r.text.lower().split("\n")[0]`. -/
def csvHeaderOk (text : String) : Bool :=
  decide (text ≠ "") &&
    containsStr ((text.toLower.splitOn ("\n")).headD ("")) ("date")

/-- The guard of the second fallback of `fetch_fred_series`:
`r.text and len(r.text.strip()) > 10 and "date" in r.text.lower()[:200]`. -/
def mirrorTextOk (text : String) : Bool :=
  decide (text ≠ "") && decide (10 < text.trim.length) &&
    containsStr (text.toLower.take 200) ("date")

/-- The `fredgraph.csv` fallback attempt of `fetch_fred_series`: the
series it returns, or `none` when the attempt falls through (request
raised, header check failed, parse raised, or parsed series empty). -/
def csvBranch (env : FredEnv) : Option (List ℚ) :=
  match env.csvHttp with
  | .raise => none
  | .ok text =>
    if csvHeaderOk text then
      match env.csvParse text with
      | .raise => none
      | .ok s => if 0 < s.length then some s else none
    else none

/-- The third-party-mirror fallback attempt of `fetch_fred_series`,
analogous to `csvBranch`. -/
def mirrorBranch (env : FredEnv) : Option (List ℚ) :=
  match env.mirrorHttp with
  | .raise => none
  | .ok text =>
    if mirrorTextOk text then
      match env.mirrorParse text with
      | .raise => none
      | .ok s => if 0 < s.length then some s else none
    else none

/-- The authenticated attempt of `fetch_fred_series`: only run when the
key is non-empty (`if api_key:`), and only accepted when it returned at
least one observation (`if len(s) > 0`). -/
def apiBranch (env : FredEnv) : Option (List ℚ) :=
  if env.apiKey ≠ "" then
    let s := fetch_fred_via_api env
    if 0 < s.length then some s else none
  else none

/-- One external fetch attempt of `fetch_fred_series`. -/
inductive Attempt where
  | api | csv | mirror
deriving DecidableEq, Repr

/-- `fetch_fred_series` from `data_sources.py`, instrumented with the
list of fetch attempts executed, in order.  The source returns each
branch's series as soon as one is non-empty and an empty series when all
attempts fail; an attempt is recorded exactly when the corresponding
block of the source runs. -/
def fetch_fred_series (env : FredEnv) : List ℚ × List Attempt :=
  let apiAtt : List Attempt := if env.apiKey ≠ "" then [Attempt.api] else []
  match apiBranch env with
  | some s => (s, apiAtt)
  | none =>
    match csvBranch env with
    | some s => (s, apiAtt ++ [Attempt.csv])
    | none =>
      match mirrorBranch env with
      | some s => (s, apiAtt ++ [Attempt.csv, Attempt.mirror])
      | none => ([], apiAtt ++ [Attempt.csv, Attempt.mirror])

/-! ## Concrete inputs used by the counterexamples and witnesses -/

/-- A 20-observation series rising monotonically from 100 to 110. -/
def risingVals20 : List ℚ :=
  [100, 100.5, 101, 101.5, 102, 102.5, 103, 103.5, 104, 104.5,
   105, 105.5, 106, 106.5, 107, 107.5, 108, 109, 109.5, 110]

/-- A 21-observation series whose final 20-observation window falls from
100 to 93, i.e. a 4-week percent change of exactly −7. -/
def downList : List (Option ℚ) :=
  [some 50,
   some 100, some 100, some 100, some 100, some 100, some 100, some 100,
   some 100, some 100, some 100, some 100, some 100, some 100, some 100,
   some 100, some 100, some 100, some 100, some 100,
   some 93]

/-- Input mapping for the end-to-end crisis scenario: HY OAS currently at
7.0, VIX currently at 35, every other metric on a series whose 4-week
percent change is −7. -/
def data4 : String → Option DataValue := fun k =>
  ([("BAMLH0A0HYM2", DataValue.series [some 7]),
    ("^VIX", DataValue.series [some 35]),
    ("HYG", DataValue.series downList),
    ("JNK", DataValue.series downList),
    ("WALCL", DataValue.series downList),
    ("UUP", DataValue.series downList),
    ("SPY", DataValue.series downList),
    ("XLF", DataValue.series downList),
    ("KRE", DataValue.series downList)] : List (String × DataValue)).lookup k

/-- A metric's dict entry carries no usable data: the key is absent, the
value is not a pandas `Series`, or the series is empty. -/
def seriesMissing (v : Option DataValue) : Prop :=
  v = none ∨ v = some DataValue.notSeries ∨ v = some (DataValue.series [])

/-- An environment with no credential where every external call raises. -/
def envAllFail : FredEnv where
  apiKey := ""
  apiHttp := Http.raise
  csvHttp := Http.raise
  csvParse := fun _ => Http.raise
  mirrorHttp := Http.raise
  mirrorParse := fun _ => Http.raise

/-! ## Helper lemmas -/

/-- `_pct_change_4w` is undefined on a series of at most 20 observations:
the source guard `last_n >= len(series)` fires. -/
lemma pct_change_4w_short (s : List (Option ℚ)) (h : s.length ≤ 20) :
    pct_change_4w s 20 = none := by
  unfold pct_change_4w
  rw [if_pos (Or.inr (by omega))]

/-- `_pct_change_4w` is undefined when the window's first value is `NaN`
or zero. -/
lemma pct_change_4w_badFirst (s : List (Option ℚ)) (old : Option ℚ)
    (hlen : 20 < s.length)
    (hh : (s.drop (s.length - 20)).head? = some old)
    (hbad : old = none ∨ old = some 0) :
    pct_change_4w s 20 = none := by
  unfold pct_change_4w
  rw [if_neg (by omega)]
  have hne : s.drop (s.length - 20) ≠ [] := by
    intro hnil
    rw [hnil] at hh
    simp at hh
  obtain ⟨nw, hnw⟩ := Option.isSome_iff_exists.mp (List.getLast?_isSome.mpr hne)
  simp only [hh, hnw]
  rcases hbad with h0 | h0 <;> subst h0
  · rfl
  · simp

/-- `_pct_change_4w` on more than 20 observations with a defined nonzero
window-first value and defined window-last value is
`(last - first) / first * 100`. -/
lemma pct_change_4w_window (s : List (Option ℚ)) (o n : ℚ)
    (hlen : 20 < s.length)
    (hh : (s.drop (s.length - 20)).head? = some (some o))
    (hl : (s.drop (s.length - 20)).getLast? = some (some n))
    (ho : o ≠ 0) :
    pct_change_4w s 20 = some ((n - o) / o * 100) := by
  unfold pct_change_4w
  rw [if_neg (by omega)]
  simp only [hh, hl]
  rw [if_neg ho]

/-- Each value of `flag_hy_oas` is 0, 1 or 2. -/
lemma flag_hy_oas_cases (v : Option ℚ) :
    flag_hy_oas v = 0 ∨ flag_hy_oas v = 1 ∨ flag_hy_oas v = 2 := by
  rcases v with _ | x
  · simp [flag_hy_oas]
  · simp only [flag_hy_oas]
    split_ifs <;> simp

/-- Each value of `flag_vix` is 0, 1 or 2. -/
lemma flag_vix_cases (v : Option ℚ) :
    flag_vix v = 0 ∨ flag_vix v = 1 ∨ flag_vix v = 2 := by
  rcases v with _ | x
  · simp [flag_vix]
  · simp only [flag_vix]
    split_ifs <;> simp

/-- Each value of `flag_etf_4w` is 0, 1 or 2. -/
lemma flag_etf_4w_cases (v : Option ℚ) :
    flag_etf_4w v = 0 ∨ flag_etf_4w v = 1 ∨ flag_etf_4w v = 2 := by
  rcases v with _ | x
  · simp [flag_etf_4w]
  · simp only [flag_etf_4w]
    split_ifs <;> simp

/-- A list map is a replicate of ones when the function is 1 on every
element. -/
lemma map_eq_replicate_one {α : Type} (f : α → ℕ) (l : List α)
    (h : ∀ x ∈ l, f x = 1) : l.map f = List.replicate l.length 1 := by
  induction l with
  | nil => rfl
  | cons a t ih =>
    simp only [List.map_cons, List.length_cons, List.replicate_succ]
    exact List.cons_eq_cons.mpr
      ⟨h a (by simp), ih (fun x hx => h x (by simp [hx]))⟩

/-! ## Claim theorems -/

/-- C7: `flag_hy_oas` returns 0 for every value < 4, 1 for every value
with 4 ≤ value ≤ 6, 2 for every value > 6, and 1 for an undefined
(`None`/`NaN`) value; in particular at 3.9, 4.0, 6.0, 6.1 it returns
0, 1, 1, 2. -/
theorem flag_hy_oas_spec :
    (∀ v : ℚ, v < 4 → flag_hy_oas (some v) = 0) ∧
    (∀ v : ℚ, 4 ≤ v → v ≤ 6 → flag_hy_oas (some v) = 1) ∧
    (∀ v : ℚ, 6 < v → flag_hy_oas (some v) = 2) ∧
    flag_hy_oas none = 1 ∧
    flag_hy_oas (some (3.9 : ℚ)) = 0 ∧ flag_hy_oas (some 4) = 1 ∧
    flag_hy_oas (some 6) = 1 ∧ flag_hy_oas (some (6.1 : ℚ)) = 2 := by
  refine ⟨?_, ?_, ?_, rfl, by norm_num [flag_hy_oas], by decide, by decide,
    by norm_num [flag_hy_oas]⟩
  · intro v h
    simp [flag_hy_oas, h]
  · intro v h1 h2
    simp only [flag_hy_oas]
    rw [if_neg (by linarith), if_pos h2]
  · intro v h
    simp only [flag_hy_oas]
    rw [if_neg (by linarith), if_neg (by linarith)]

/-- Witness for C7: the three range branches of `flag_hy_oas_spec`
instantiated at 3, 5 and 7. -/
theorem flag_hy_oas_spec_witness :
    flag_hy_oas (some 3) = 0 ∧ flag_hy_oas (some 5) = 1 ∧
    flag_hy_oas (some 7) = 2 :=
  ⟨flag_hy_oas_spec.1 3 (by norm_num),
   flag_hy_oas_spec.2.1 5 (by norm_num) (by norm_num),
   flag_hy_oas_spec.2.2.1 7 (by norm_num)⟩

/-- C8: `flag_etf_4w` returns 0 for every pct ≥ −2, 1 for every pct with
−6 ≤ pct < −2, 2 for every pct < −6, and 1 for an undefined
(`None`/`NaN`) input; in particular at −1.9, −2, −2.1, −6, −6.1 it
returns 0, 0, 1, 1, 2. -/
theorem flag_etf_4w_spec :
    (∀ p : ℚ, -2 ≤ p → flag_etf_4w (some p) = 0) ∧
    (∀ p : ℚ, -6 ≤ p → p < -2 → flag_etf_4w (some p) = 1) ∧
    (∀ p : ℚ, p < -6 → flag_etf_4w (some p) = 2) ∧
    flag_etf_4w none = 1 ∧
    flag_etf_4w (some (-1.9 : ℚ)) = 0 ∧ flag_etf_4w (some (-2)) = 0 ∧
    flag_etf_4w (some (-2.1 : ℚ)) = 1 ∧ flag_etf_4w (some (-6)) = 1 ∧
    flag_etf_4w (some (-6.1 : ℚ)) = 2 := by
  refine ⟨?_, ?_, ?_, rfl, by norm_num [flag_etf_4w], by decide,
    by norm_num [flag_etf_4w], by decide, by norm_num [flag_etf_4w]⟩
  · intro p h
    simp only [flag_etf_4w]
    rw [if_pos h]
  · intro p h1 h2
    simp only [flag_etf_4w]
    rw [if_neg (by linarith), if_pos h1]
  · intro p h
    simp only [flag_etf_4w]
    rw [if_neg (by linarith), if_neg (by linarith)]

/-- Witness for C8: the three range branches of `flag_etf_4w_spec`
instantiated at 0, −4 and −10. -/
theorem flag_etf_4w_spec_witness :
    flag_etf_4w (some 0) = 0 ∧ flag_etf_4w (some (-4)) = 1 ∧
    flag_etf_4w (some (-10)) = 2 :=
  ⟨flag_etf_4w_spec.1 0 (by norm_num),
   flag_etf_4w_spec.2.1 (-4) (by norm_num) (by norm_num),
   flag_etf_4w_spec.2.2.1 (-10) (by norm_num)⟩

/-- C9: `trend_arrow` returns the up marker `↑` for every pct > 2, the
down marker `↓` for every pct < −2, the flat marker `→` otherwise, and
the no-data marker `—` for an undefined input; the four markers are
pairwise distinct. -/
theorem trend_arrow_spec :
    (∀ p : ℚ, 2 < p → trend_arrow (some p) = "↑") ∧
    (∀ p : ℚ, p < -2 → trend_arrow (some p) = "↓") ∧
    (∀ p : ℚ, -2 ≤ p → p ≤ 2 → trend_arrow (some p) = "→") ∧
    trend_arrow none = "—" ∧
    trend_arrow (some (2.1 : ℚ)) = "↑" ∧
    trend_arrow (some (-2.1 : ℚ)) = "↓" ∧
    trend_arrow (some 0) = "→" ∧
    ("↑" ≠ "↓" ∧ "↑" ≠ "→" ∧ "↑" ≠ "—" ∧
     "↓" ≠ "→" ∧ "↓" ≠ "—" ∧ "→" ≠ "—") := by
  refine ⟨?_, ?_, ?_, rfl, by norm_num [trend_arrow],
    by norm_num [trend_arrow], by decide, by decide⟩
  · intro p h
    simp only [trend_arrow]
    rw [if_pos h]
  · intro p h
    simp only [trend_arrow]
    rw [if_neg (by linarith), if_pos h]
  · intro p h1 h2
    simp only [trend_arrow]
    rw [if_neg (by linarith), if_neg (by linarith)]

/-- Witness for C9: the three range branches of `trend_arrow_spec`
instantiated at 3, −3 and 1. -/
theorem trend_arrow_spec_witness :
    trend_arrow (some 3) = "↑" ∧ trend_arrow (some (-3)) = "↓" ∧
    trend_arrow (some 1) = "→" :=
  ⟨trend_arrow_spec.1 3 (by norm_num),
   trend_arrow_spec.2.1 (-3) (by norm_num),
   trend_arrow_spec.2.2.1 1 (by norm_num) (by norm_num)⟩

/-- C3: for every integer score s with 0 ≤ s ≤ 18, exactly one band of
`REGIMES` contains s (the four bands partition [0, 18] with no gaps or
overlaps), `regime_label` returns that band's label (so the lookup of
the first matching band is unambiguous), and the `"Unknown"` fallback is
unreachable. -/
theorem regime_label_partition (s : ℤ) (h0 : 0 ≤ s) (h1 : s ≤ 18) :
    REGIMES.countP (fun b => decide (b.1 ≤ s ∧ s ≤ b.2.1)) = 1 ∧
    (∀ b ∈ REGIMES, b.1 ≤ s → s ≤ b.2.1 → regime_label s = b.2.2) ∧
    regime_label s ≠ "Unknown" := by
  interval_cases s <;> exact ⟨by decide, by decide, by decide⟩

/-- Witness for C3: `regime_label_partition` at score 9. -/
theorem regime_label_partition_witness :
    REGIMES.countP (fun b => decide (b.1 ≤ (9 : ℤ) ∧ (9 : ℤ) ≤ b.2.1)) = 1 ∧
    (∀ b ∈ REGIMES, b.1 ≤ (9 : ℤ) → (9 : ℤ) ≤ b.2.1 →
      regime_label 9 = b.2.2) ∧
    regime_label 9 ≠ "Unknown" :=
  regime_label_partition 9 (by norm_num) (by norm_num)

/-- C1 counterexample: a series of exactly 20 observations rising
monotonically from 100 to 110, on which `_pct_change_4w` with window 20
returns `None` — not 10.0 as claimed — because the guard
`last_n >= len(series)` rejects any series of at most 20 observations. -/
theorem pct_change_4w_twenty_counterexample :
    risingVals20.length = 20 ∧
    risingVals20.head? = some 100 ∧
    risingVals20.getLast? = some 110 ∧
    risingVals20.Chain' (· < ·) ∧
    pct_change_4w (risingVals20.map some) TRADING_DAYS_4W = none ∧
    pct_change_4w (risingVals20.map some) TRADING_DAYS_4W ≠ some 10 := by
  have hnone : pct_change_4w (risingVals20.map some) TRADING_DAYS_4W = none :=
    rfl
  refine ⟨rfl, rfl, rfl, ?_, hnone, by simp [hnone]⟩
  norm_num [risingVals20, List.chain'_cons]

/-- C1 as amended: with window 20, `_pct_change_4w` is undefined for any
series of at most 20 observations (in particular for exactly 20 — the
code requires at least 21), undefined when the 20-observation window's
first value is `NaN` or zero, and otherwise equals
`(last − first) / first * 100` over the last 20 observations. -/
theorem pct_change_4w_amended (s : List (Option ℚ)) :
    (s.length ≤ 20 → pct_change_4w s TRADING_DAYS_4W = none) ∧
    (∀ old : Option ℚ, 20 < s.length →
      (s.drop (s.length - 20)).head? = some old →
      old = none ∨ old = some 0 →
      pct_change_4w s TRADING_DAYS_4W = none) ∧
    (∀ o n : ℚ, 20 < s.length →
      (s.drop (s.length - 20)).head? = some (some o) →
      (s.drop (s.length - 20)).getLast? = some (some n) →
      o ≠ 0 →
      pct_change_4w s TRADING_DAYS_4W = some ((n - o) / o * 100)) :=
  ⟨fun h => pct_change_4w_short s h,
   fun old h1 h2 h3 => pct_change_4w_badFirst s old h1 h2 h3,
   fun o n h1 h2 h3 h4 => pct_change_4w_window s o n h1 h2 h3 h4⟩

/-- Witness for the amended C1: a 21-observation series whose last
20 observations rise from 100 to 110 has a 4-week percent change of
exactly 10, and a 2-observation series has none. -/
theorem pct_change_4w_amended_witness :
    pct_change_4w (some 50 :: risingVals20.map some) TRADING_DAYS_4W
      = some 10 ∧
    pct_change_4w [some 1, some 2] TRADING_DAYS_4W = none := by
  constructor
  · have h := (pct_change_4w_amended (some 50 :: risingVals20.map some)).2.2
      100 110 (by decide) rfl rfl (by norm_num)
    rw [h]
    norm_num
  · exact (pct_change_4w_amended [some 1, some 2]).1 (by decide)

/-- C2 counterexample: with every metric undefined (empty input mapping)
the total score is 9, but the regime label is `"Stress Building"` (the
9–14 band), not `"Late Cycle"` (the 5–8 band) as claimed. -/
theorem all_undefined_regime_counterexample :
    (build_metrics_table (fun _ => none)).2.1 = 9 ∧
    (build_metrics_table (fun _ => none)).2.2 = "Stress Building" ∧
    (build_metrics_table (fun _ => none)).2.2 ≠ "Late Cycle" :=
  ⟨by decide, by decide, by decide⟩

/-- C2 as amended: if every one of the nine metrics has an undefined
value and undefined percent change, each flag is 1, the total score is
9, and the regime label is `"Stress Building"`. -/
theorem all_undefined_amended (data : String → Option DataValue)
    (h : ∀ cfg ∈ METRIC_CONFIG, currentAndPct (data cfg.key) = (none, none)) :
    METRIC_CONFIG.map (rowFlag data) = List.replicate 9 1 ∧
    (build_metrics_table data).2.1 = 9 ∧
    (build_metrics_table data).2.2 = "Stress Building" := by
  have hflag : ∀ cfg ∈ METRIC_CONFIG, rowFlag data cfg = 1 := by
    intro cfg hc
    simp only [rowFlag]
    rw [h cfg hc]
    simp only [metricFlag]
    split_ifs <;> rfl
  have hmap : METRIC_CONFIG.map (rowFlag data) = List.replicate 9 1 := by
    have h9 : METRIC_CONFIG.length = 9 := rfl
    rw [map_eq_replicate_one (rowFlag data) METRIC_CONFIG hflag, h9]
  have htot : (METRIC_CONFIG.map (rowFlag data)).sum = 9 := by
    rw [hmap]
    rfl
  have h21 : (build_metrics_table data).2.1
      = (METRIC_CONFIG.map (rowFlag data)).sum := rfl
  have h22 : (build_metrics_table data).2.2
      = regime_label (((METRIC_CONFIG.map (rowFlag data)).sum : ℕ) : ℤ) := rfl
  refine ⟨hmap, by rw [h21, htot], ?_⟩
  rw [h22, htot]
  decide

/-- Witness for the amended C2: the empty input mapping. -/
theorem all_undefined_amended_witness :
    METRIC_CONFIG.map (rowFlag (fun _ => none)) = List.replicate 9 1 ∧
    (build_metrics_table (fun _ => none)).2.1 = 9 ∧
    (build_metrics_table (fun _ => none)).2.2 = "Stress Building" :=
  all_undefined_amended (fun _ => none) (by decide)

/-- C5: for every input mapping, the total score of
`build_metrics_table` is the sum of exactly nine flag values, each flag
is 0, 1 or 2, and the score lies in 0..18 (it is a `ℕ`, so the lower
bound is inherent). -/
theorem total_score_range (data : String → Option DataValue) :
    (build_metrics_table data).2.1 = (METRIC_CONFIG.map (rowFlag data)).sum ∧
    (METRIC_CONFIG.map (rowFlag data)).length = 9 ∧
    (∀ f ∈ METRIC_CONFIG.map (rowFlag data), f = 0 ∨ f = 1 ∨ f = 2) ∧
    (build_metrics_table data).2.1 ≤ 18 := by
  have hb : ∀ f ∈ METRIC_CONFIG.map (rowFlag data),
      f = 0 ∨ f = 1 ∨ f = 2 := by
    intro f hf
    obtain ⟨cfg, _, rfl⟩ := List.mem_map.mp hf
    simp only [rowFlag, metricFlag]
    split_ifs
    · exact flag_hy_oas_cases _
    · exact flag_vix_cases _
    · exact flag_etf_4w_cases _
  refine ⟨rfl, rfl, hb, ?_⟩
  show (METRIC_CONFIG.map (rowFlag data)).sum ≤ 18
  have h2 : ∀ f ∈ METRIC_CONFIG.map (rowFlag data), f ≤ 2 := by
    intro f hf
    rcases hb f hf with h | h | h <;> omega
  have h3 := List.sum_le_card_nsmul (METRIC_CONFIG.map (rowFlag data)) 2 h2
  have hlen : (METRIC_CONFIG.map (rowFlag data)).length = 9 := rfl
  rw [hlen] at h3
  simpa using h3

/-- Witness for C5: the score bound at the empty input mapping. -/
theorem total_score_range_witness :
    (build_metrics_table (fun _ => none)).2.1 ≤ 18 :=
  (total_score_range (fun _ => none)).2.2.2

/-- C10: for every input mapping, `build_metrics_table` returns exactly
nine rows, one per `METRIC_CONFIG` entry in declaration order, and a
metric whose entry is missing, empty, or not a `Series` gets the em-dash
placeholder as Current, the no-data trend marker, and a Yellow flag.
(The embedded function is total, mirroring that the source raises no
exception on such inputs.) -/
theorem build_metrics_table_safe (data : String → Option DataValue) :
    (build_metrics_table data).1 = METRIC_CONFIG.map (buildRow data) ∧
    (build_metrics_table data).1.length = 9 ∧
    (build_metrics_table data).1.map (fun r => r.metric)
      = METRIC_CONFIG.map (fun c => c.displayName) ∧
    (∀ cfg ∈ METRIC_CONFIG, seriesMissing (data cfg.key) →
      (buildRow data cfg).current = "—" ∧
      (buildRow data cfg).trend = "—" ∧
      (buildRow data cfg).flag = "Yellow") := by
  refine ⟨rfl, rfl, rfl, ?_⟩
  intro cfg hc hmiss
  have hcp : currentAndPct (data cfg.key) = (none, none) := by
    rcases hmiss with h | h | h <;> rw [h] <;> rfl
  refine ⟨?_, ?_, ?_⟩ <;> simp only [buildRow, hcp]
  · rfl
  · rfl
  · simp only [metricFlag]
    split_ifs <;> rfl

/-- Witness for C10: the first metric of an empty input mapping. -/
theorem build_metrics_table_safe_witness :
    (buildRow (fun _ => none)
      ⟨"Credit Risk", "HY OAS (BAML)", "BAMLH0A0HYM2", "hy_oas", none⟩).current
        = "—" ∧
    (buildRow (fun _ => none)
      ⟨"Credit Risk", "HY OAS (BAML)", "BAMLH0A0HYM2", "hy_oas", none⟩).trend
        = "—" ∧
    (buildRow (fun _ => none)
      ⟨"Credit Risk", "HY OAS (BAML)", "BAMLH0A0HYM2", "hy_oas", none⟩).flag
        = "Yellow" :=
  (build_metrics_table_safe (fun _ => none)).2.2.2
    ⟨"Credit Risk", "HY OAS (BAML)", "BAMLH0A0HYM2", "hy_oas", none⟩
    (by decide) (Or.inl rfl)

/-- C4: on the input where HY OAS is currently 7.0, VIX is currently 35
and the seven other metrics all have a 4-week percent change of −7, all
nine flags are 2, the total score is 18 and the regime is `"Crisis"`. -/
theorem crisis_end_to_end :
    (currentAndPct (data4 "BAMLH0A0HYM2")).1 = some 7 ∧
    (currentAndPct (data4 "^VIX")).1 = some 35 ∧
    METRIC_CONFIG.map (fun cfg => (currentAndPct (data4 cfg.key)).2)
      = [none, some (-7), some (-7), none, some (-7), some (-7), some (-7),
         some (-7), some (-7)] ∧
    METRIC_CONFIG.map (rowFlag data4) = List.replicate 9 2 ∧
    (build_metrics_table data4).2.1 = 18 ∧
    (build_metrics_table data4).2.2 = "Crisis" := by
  have hpd : pct_change_4w downList TRADING_DAYS_4W = some (-7) := by
    have h := pct_change_4w_window downList 100 93 (by decide) rfl rfl
      (by norm_num)
    have h2 : ((93 : ℚ) - 100) / 100 * 100 = -7 := by norm_num
    rw [h2] at h
    exact h
  have hcpD : currentAndPct (some (DataValue.series downList))
      = (some 93, some (-7)) := by
    simp only [currentAndPct]
    rw [hpd]
    rfl
  have hcp7 : currentAndPct (data4 "BAMLH0A0HYM2") = (some 7, none) := rfl
  have hcpV : currentAndPct (data4 "^VIX") = (some 35, none) := rfl
  have hH : currentAndPct (data4 "HYG") = (some 93, some (-7)) := by
    rw [show data4 "HYG" = some (DataValue.series downList) from rfl]
    exact hcpD
  have hJ : currentAndPct (data4 "JNK") = (some 93, some (-7)) := by
    rw [show data4 "JNK" = some (DataValue.series downList) from rfl]
    exact hcpD
  have hW : currentAndPct (data4 "WALCL") = (some 93, some (-7)) := by
    rw [show data4 "WALCL" = some (DataValue.series downList) from rfl]
    exact hcpD
  have hU : currentAndPct (data4 "UUP") = (some 93, some (-7)) := by
    rw [show data4 "UUP" = some (DataValue.series downList) from rfl]
    exact hcpD
  have hS : currentAndPct (data4 "SPY") = (some 93, some (-7)) := by
    rw [show data4 "SPY" = some (DataValue.series downList) from rfl]
    exact hcpD
  have hX : currentAndPct (data4 "XLF") = (some 93, some (-7)) := by
    rw [show data4 "XLF" = some (DataValue.series downList) from rfl]
    exact hcpD
  have hK : currentAndPct (data4 "KRE") = (some 93, some (-7)) := by
    rw [show data4 "KRE" = some (DataValue.series downList) from rfl]
    exact hcpD
  have hmapFlag : METRIC_CONFIG.map (rowFlag data4) = List.replicate 9 2 := by
    simp only [METRIC_CONFIG, List.map_cons, List.map_nil, rowFlag]
    rw [hcp7, hcpV, hH, hJ, hW, hU, hS, hX, hK]
    decide
  have hmapPct : METRIC_CONFIG.map (fun cfg => (currentAndPct (data4 cfg.key)).2)
      = [none, some (-7), some (-7), none, some (-7), some (-7), some (-7),
         some (-7), some (-7)] := by
    simp only [METRIC_CONFIG, List.map_cons, List.map_nil]
    rw [hcp7, hcpV, hH, hJ, hW, hU, hS, hX, hK]
  have h21 : (build_metrics_table data4).2.1
      = (METRIC_CONFIG.map (rowFlag data4)).sum := rfl
  have h22 : (build_metrics_table data4).2.2
      = regime_label (((METRIC_CONFIG.map (rowFlag data4)).sum : ℕ) : ℤ) := rfl
  refine ⟨by rw [hcp7], by rw [hcpV], hmapPct, hmapFlag, ?_, ?_⟩
  · rw [h21, hmapFlag]
    decide
  · rw [h22, hmapFlag]
    decide

/-- C6: `fetch_fred_series` attempts the authenticated API call exactly
when a credential is configured; the public-graph CSV fallback runs
exactly when there was no API attempt or the API attempt produced zero
observations (its internal `try/except` turns every exception into an
empty series); the third-party-mirror fallback runs exactly when the CSV
attempt also produced no usable series (raised, failed the header check,
failed to parse, or parsed empty); and when every attempt fails the
function returns the empty series.  Totality of the embedding mirrors
that no exception propagates out of the source function. -/
theorem fetch_fred_series_chain (env : FredEnv) :
    (Attempt.api ∈ (fetch_fred_series env).2 ↔ env.apiKey ≠ "") ∧
    (Attempt.csv ∈ (fetch_fred_series env).2 ↔
      env.apiKey = "" ∨ fetch_fred_via_api env = []) ∧
    (Attempt.mirror ∈ (fetch_fred_series env).2 ↔
      (env.apiKey = "" ∨ fetch_fred_via_api env = []) ∧ csvBranch env = none) ∧
    ((env.apiKey = "" ∨ fetch_fred_via_api env = []) → csvBranch env = none →
      mirrorBranch env = none → (fetch_fred_series env).1 = []) := by
  rcases hA : apiBranch env with _ | s1
  · have hor : env.apiKey = "" ∨ fetch_fred_via_api env = [] := by
      unfold apiBranch at hA
      by_cases hk : env.apiKey = ""
      · exact Or.inl hk
      · refine Or.inr ?_
        rw [if_pos hk] at hA
        simp only [] at hA
        by_cases hl : 0 < (fetch_fred_via_api env).length
        · rw [if_pos hl] at hA
          exact Option.noConfusion hA
        · exact List.length_eq_zero.mp (by omega)
    unfold fetch_fred_series
    rw [hA]
    rcases hC : csvBranch env with _ | s2
    · rcases hM : mirrorBranch env with _ | s3
      · by_cases hk : env.apiKey = ""
        · simp [hk, hor, hC, hM]
        · have hf := hor.resolve_left hk
          simp [hk, hf, hC, hM]
      · by_cases hk : env.apiKey = ""
        · simp [hk, hor, hC, hM]
        · have hf := hor.resolve_left hk
          simp [hk, hf, hC, hM]
    · by_cases hk : env.apiKey = ""
      · simp [hk, hor, hC]
      · have hf := hor.resolve_left hk
        simp [hk, hf, hC]
  · have hk : env.apiKey ≠ "" := by
      intro h
      unfold apiBranch at hA
      simp [h] at hA
    have hfne : fetch_fred_via_api env ≠ [] := by
      intro h
      unfold apiBranch at hA
      simp [h, hk] at hA
    unfold fetch_fred_series
    rw [hA]
    simp [hk, hfne]

/-- Witness for C6: with no credential and every external call raising,
the chain falls through all attempts and returns the empty series. -/
theorem fetch_fred_series_chain_witness :
    (fetch_fred_series envAllFail).1 = [] :=
  (fetch_fred_series_chain envAllFail).2.2.2 (Or.inl rfl) rfl rfl

end MacroRisk
